import Mathlib

/-!
Verification of the response-processing and credential-cache engine of the
msal-js fork (ResponseHandler.ts and the BaseClient token-endpoint path).

The TypeScript source is shallowly embedded: optional wire strings become
`Option String` (with JavaScript truthiness: `none` and `some ""` are falsy),
thrown errors become `Except AuthError`, the external collaborators (crypto,
state parsing, interaction-required classification, clock) become an explicit
capability record `ExternalOps`, and the external cache store becomes an
explicit `CacheManager` state threaded through the orchestrator, together with
a trace of persistence-plugin / store events.
-/

set_option maxHeartbeats 1000000

/-- JavaScript truthiness for an optional string field: `undefined` and the
empty string are falsy, every other string is truthy. -/
def truthyS (s : Option String) : Bool :=
  match s with
  | none => false
  | some v => !v.isEmpty

/-- JavaScript string coercion of a possibly-undefined string (as performed by
`decodeURIComponent` and template literals): `undefined` renders as the string
"undefined". -/
def jsO (s : Option String) : String :=
  match s with
  | none => "undefined"
  | some v => v

/-- JavaScript string coercion of a possibly-undefined string array (template
literal interpolation): `undefined` renders as "undefined", an array joins its
entries with commas. -/
def jsList (s : Option (List String)) : String :=
  match s with
  | none => "undefined"
  | some l => String.intercalate "," l

/-- StringUtils.isEmpty from the library: true iff the value is undefined or
the empty string. -/
def StringUtils.isEmpty (s : Option String) : Bool :=
  match s with
  | none => true
  | some v => v.isEmpty

/-- Decoded client_info pair (account/ClientInfo.ts). -/
structure ClientInfo where
  uid : String
  utid : String
deriving DecidableEq, Repr

/-- Claims of a decoded identity token that this engine reads. -/
structure TokenClaims where
  nonce : Option String
  sub : Option String
  oid : Option String
  tid : Option String
deriving DecidableEq, Repr

/-- Decoded identity token: raw string plus extracted claims
(account/AuthToken.ts). -/
structure AuthToken where
  rawToken : String
  claims : TokenClaims
deriving DecidableEq, Repr

/-- Library state round-tripped through the `state` parameter: request id and
the timestamp used to baseline token expiration (utils/ProtocolUtils.ts). -/
structure LibraryStateObject where
  id : String
  ts : Nat
deriving DecidableEq, Repr

/-- Parsed request state: the caller's original state string plus the optional
library state (utils/ProtocolUtils.ts). -/
structure RequestStateObject where
  userRequestState : String
  libraryState : Option LibraryStateObject
deriving DecidableEq, Repr

/-- The error taxonomy raised by the embedded code paths. -/
inductive AuthError where
  | stateMismatch
  | nonceMismatch
  | invalidCacheEnvironment
  | clientInfoEmpty
  | clientInfoDecodingError
  | idTokenParsingError
  | invalidStateError
  | interactionRequired (err desc sub : Option String)
  | serverErrorCode (err desc sub : Option String)
  | serverErrorToken (err : Option String) (errString : String)
  | cacheError
deriving DecidableEq, Repr

/-- Modelled from the spec: the capability interfaces consumed by the engine
(crypto decoding/signing, protocol-state parsing, interaction-required
classification, percent-decoding, clock).  Decoding capabilities return
`Option`; the call sites map a failed decode to the corresponding
classified error, as the concrete collaborators do. -/
structure ExternalOps where
  decodeClientInfo : String → Option ClientInfo
  extractTokenClaims : String → Option TokenClaims
  parseState : String → Option RequestStateObject
  signPopToken : String → Option String → Option String → String
  decodeURIComponent : String → String
  isInteractionRequiredError : Option String → Option String → Option String → Bool
  nowSeconds : Nat

/-- buildClientInfo (account/ClientInfo.ts): decodes the raw client_info
string; a failed decode raises the client-info decoding error. -/
def buildClientInfo (ops : ExternalOps) (rawClientInfo : String) : Except AuthError ClientInfo :=
  match ops.decodeClientInfo rawClientInfo with
  | some info => Except.ok info
  | none => Except.error AuthError.clientInfoDecodingError

/-- AuthToken construction (account/AuthToken.ts): keeps the raw token and
extracts its claims; a failed extraction raises the id-token parsing error. -/
def AuthToken.create (ops : ExternalOps) (rawIdToken : String) : Except AuthError AuthToken :=
  match ops.extractTokenClaims rawIdToken with
  | some claims => Except.ok { rawToken := rawIdToken, claims := claims }
  | none => Except.error AuthError.idTokenParsingError

/-- ProtocolUtils.parseRequestState: parses the cached state string; a failed
parse raises the invalid-state error. -/
def ProtocolUtils.parseRequestState (ops : ExternalOps) (state : String) : Except AuthError RequestStateObject :=
  match ops.parseState state with
  | some r => Except.ok r
  | none => Except.error AuthError.invalidStateError

/-- Authority type enumeration (authority/AuthorityType.ts). -/
inductive AuthorityType where
  | Default
  | Adfs
deriving DecidableEq, Repr

/-- The slice of the Authority object this engine reads: its type, protocol
mode (compared against the literal "AAD"), tenant, and the environment the
static resolver derives from it. -/
structure Authority where
  authorityType : AuthorityType
  protocolMode : String
  tenant : String
  canonicalEnvironment : String
deriving DecidableEq, Repr

/-- Modelled from the spec: Authority.generateEnvironmentFromAuthority
(external to the shown source) resolves the cache environment string from the
authority. -/
def Authority.generateEnvironmentFromAuthority (authority : Authority) : String :=
  authority.canonicalEnvironment

/-- Server token response wire payload (response/ServerAuthorizationTokenResponse.ts).
`expires_in`/`ext_expires_in` are the numeric lifetimes; the claims under
verification only concern responses where they are present and non-negative,
so they are embedded as `Nat`. -/
structure ServerAuthorizationTokenResponse where
  token_type : Option String
  scope : Option String
  expires_in : Nat
  ext_expires_in : Nat
  access_token : Option String
  refresh_token : Option String
  id_token : Option String
  client_info : Option String
  foci : Option String
  error : Option String
  error_description : Option String
  suberror : Option String
  error_codes : Option (List String)
  timestamp : Option String
  trace_id : Option String
  correlation_id : Option String
deriving DecidableEq, Repr

/-- Authorization-code response wire payload
(response/ServerAuthorizationCodeResponse.ts). -/
structure ServerAuthorizationCodeResponse where
  code : Option String
  state : Option String
  error : Option String
  error_description : Option String
  suberror : Option String
  client_info : Option String
deriving DecidableEq, Repr

/-- Modelled from the spec: account cache entity — identity plus authority
realm binding, keyed by (homeAccountId, environment, realm); `isGeneric`
records whether it was built by createGenericAccount or createAccount. -/
structure AccountEntity where
  homeAccountId : String
  environment : String
  realm : String
  isGeneric : Bool
  oboAssertion : Option String
deriving DecidableEq, Repr

instance : Inhabited AccountEntity :=
  ⟨{ homeAccountId := "", environment := "", realm := "", isGeneric := false, oboAssertion := none }⟩

/-- Modelled from the spec: AccountEntity.createGenericAccount (external to
the shown source) builds a generic (non-AAD) account directly from the decoded
identity token. -/
def AccountEntity.createGenericAccount (authority : Authority) (idToken : Option AuthToken) (oboAssertion : Option String) : AccountEntity :=
  { homeAccountId :=
      match idToken with
      | some t => t.claims.sub.getD ""
      | none => ""
    environment := authority.generateEnvironmentFromAuthority
    realm :=
      match idToken with
      | some t => t.claims.tid.getD ""
      | none => ""
    isGeneric := true
    oboAssertion := oboAssertion }

/-- Modelled from the spec: AccountEntity.createAccount (external to the shown
source) builds an AAD account whose home account id is derived from the decoded
client_info pair as "uid.utid". -/
def AccountEntity.createAccount (ops : ExternalOps) (clientInfo : String) (authority : Authority) (idToken : Option AuthToken) (oboAssertion : Option String) : AccountEntity :=
  { homeAccountId :=
      match ops.decodeClientInfo clientInfo with
      | some info => info.uid ++ "." ++ info.utid
      | none => ""
    environment := authority.generateEnvironmentFromAuthority
    realm :=
      match idToken with
      | some t => t.claims.tid.getD ""
      | none => ""
    isGeneric := false
    oboAssertion := oboAssertion }

/-- Modelled from the spec: the derived account cache key, joining
(homeAccountId, environment, realm). -/
def AccountEntity.generateAccountKey (account : AccountEntity) : String :=
  (account.homeAccountId ++ "-" ++ account.environment ++ "-" ++ account.realm).toLower

/-- Id-token cache entity (cache/entities/IdTokenEntity.ts), with the fields
createIdTokenEntity receives. -/
structure IdTokenEntity where
  homeAccountId : String
  environment : String
  secret : String
  clientId : String
  realm : String
  oboAssertion : Option String
deriving DecidableEq, Repr

/-- IdTokenEntity.createIdTokenEntity: packs the given fields. -/
def IdTokenEntity.createIdTokenEntity (homeAccountId environment idToken clientId tenantId : String) (oboAssertion : Option String) : IdTokenEntity :=
  { homeAccountId := homeAccountId, environment := environment, secret := idToken,
    clientId := clientId, realm := tenantId, oboAssertion := oboAssertion }

/-- Access-token cache entity (cache/entities/AccessTokenEntity.ts), with the
fields createAccessTokenEntity receives; expirations are epoch seconds. -/
structure AccessTokenEntity where
  homeAccountId : String
  environment : String
  secret : String
  clientId : String
  realm : String
  target : String
  expiresOn : Nat
  extendedExpiresOn : Nat
  tokenType : Option String
  oboAssertion : Option String
deriving DecidableEq, Repr

instance : Inhabited AccessTokenEntity :=
  ⟨{ homeAccountId := "", environment := "", secret := "", clientId := "", realm := "",
     target := "", expiresOn := 0, extendedExpiresOn := 0, tokenType := none, oboAssertion := none }⟩

/-- AccessTokenEntity.createAccessTokenEntity: packs the given fields. -/
def AccessTokenEntity.createAccessTokenEntity (homeAccountId environment accessToken clientId tenantId scopes : String) (expiresOn extendedExpiresOn : Nat) (tokenType : Option String) (oboAssertion : Option String) : AccessTokenEntity :=
  { homeAccountId := homeAccountId, environment := environment, secret := accessToken,
    clientId := clientId, realm := tenantId, target := scopes,
    expiresOn := expiresOn, extendedExpiresOn := extendedExpiresOn,
    tokenType := tokenType, oboAssertion := oboAssertion }

/-- Refresh-token cache entity (cache/entities/RefreshTokenEntity.ts). -/
structure RefreshTokenEntity where
  homeAccountId : String
  environment : String
  secret : String
  clientId : String
  familyId : Option String
  oboAssertion : Option String
deriving DecidableEq, Repr

/-- RefreshTokenEntity.createRefreshTokenEntity: packs the given fields. -/
def RefreshTokenEntity.createRefreshTokenEntity (homeAccountId environment refreshToken clientId : String) (foci : Option String) (oboAssertion : Option String) : RefreshTokenEntity :=
  { homeAccountId := homeAccountId, environment := environment, secret := refreshToken,
    clientId := clientId, familyId := foci, oboAssertion := oboAssertion }

/-- App-metadata cache entity (cache/entities/AppMetadataEntity.ts): records
family-of-client-IDs membership per (clientId, environment). -/
structure AppMetadataEntity where
  clientId : String
  environment : String
  familyId : String
deriving DecidableEq, Repr

/-- AppMetadataEntity.createAppMetadataEntity: packs the given fields. -/
def AppMetadataEntity.createAppMetadataEntity (clientId environment familyId : String) : AppMetadataEntity :=
  { clientId := clientId, environment := environment, familyId := familyId }

/-- CacheRecord (cache/entities/CacheRecord.ts): the transactional bundle of
at most one of each entity produced from a single response. -/
structure CacheRecord where
  account : Option AccountEntity
  idToken : Option IdTokenEntity
  accessToken : Option AccessTokenEntity
  refreshToken : Option RefreshTokenEntity
  appMetadata : Option AppMetadataEntity
deriving DecidableEq, Repr

instance : Inhabited CacheRecord :=
  ⟨{ account := none, idToken := none, accessToken := none, refreshToken := none, appMetadata := none }⟩

/-- Modelled from the spec: the scope-set abstraction (request/ScopeSet.ts is
an external collaborator) — a set of scope strings represented as a list. -/
def ScopeSet := List String

/-- Structural splitter on the space character (so that scope parsing is
kernel-computable): accumulates the current chunk and emits it at each
space. -/
def splitSpaceAux : List Char → List Char → List String
  | [], acc => [String.mk acc.reverse]
  | c :: cs, acc =>
    if c = ' ' then String.mk acc.reverse :: splitSpaceAux cs []
    else splitSpaceAux cs (c :: acc)

/-- ScopeSet.fromString: splits a space-delimited scope string into its
non-empty entries. -/
def ScopeSet.fromString (scopes : String) : ScopeSet :=
  (splitSpaceAux scopes.data []).filter (fun s => !s.isEmpty)

/-- ScopeSet built from a scope array (the `new ScopeSet(arr)` form). -/
def ScopeSet.fromArray (scopes : List String) : ScopeSet :=
  scopes.filter (fun s => !s.isEmpty)

/-- ScopeSet.printScopes: joins the scopes with spaces. -/
def ScopeSet.printScopes (s : ScopeSet) : String :=
  String.intercalate " " s

/-- ScopeSet.asArray. -/
def ScopeSet.asArray (s : ScopeSet) : List String :=
  s

/-- Modelled from the spec: the external cache store (cache/CacheManager.ts is
an external collaborator).  `accounts` is the stored account map,
`savedRecords` the log of records written by saveCacheRecord; the two failure
flags inject store errors into getAccount / saveCacheRecord so that the
orchestrator's behaviour under store failure can be stated. -/
structure CacheManager where
  accounts : List (String × AccountEntity)
  savedRecords : List CacheRecord
  getAccountFails : Bool
  saveFails : Bool
deriving DecidableEq, Repr

/-- CacheManager.getAccount: looks an account up by its derived key. -/
def CacheManager.getAccount (store : CacheManager) (key : String) : Except AuthError (Option AccountEntity) :=
  if store.getAccountFails then Except.error AuthError.cacheError
  else Except.ok ((store.accounts.find? (fun p => p.1 = key)).map (fun p => p.2))

/-- CacheManager.saveCacheRecord: writes the record as one logical unit,
registering its account (when present) under its derived key. -/
def CacheManager.saveCacheRecord (store : CacheManager) (record : CacheRecord) : Except AuthError CacheManager :=
  if store.saveFails then Except.error AuthError.cacheError
  else Except.ok
    { store with
      savedRecords := store.savedRecords ++ [record]
      accounts :=
        match record.account with
        | some a => store.accounts ++ [(a.generateAccountKey, a)]
        | none => store.accounts }

/-- Truthiness of the error/error_description/suberror triple of a token
response, as tested by the guarding `if` in the source. -/
def tokenErrTruthy (resp : ServerAuthorizationTokenResponse) : Bool :=
  truthyS resp.error || truthyS resp.error_description || truthyS resp.suberror

/-- Truthiness of the error/error_description/suberror triple of an
authorization-code response. -/
def codeErrTruthy (resp : ServerAuthorizationCodeResponse) : Bool :=
  truthyS resp.error || truthyS resp.error_description || truthyS resp.suberror

/-- The server-error detail string assembled by validateTokenResponse
(template-literal interpolation, with JavaScript undefined rendering). -/
def tokenErrString (resp : ServerAuthorizationTokenResponse) : String :=
  jsList resp.error_codes ++ " - [" ++ jsO resp.timestamp ++ "]: " ++
    jsO resp.error_description ++ " - Correlation ID: " ++ jsO resp.correlation_id ++
    " - Trace ID: " ++ jsO resp.trace_id

/-- validateServerAuthorizationCodeResponse (ResponseHandler.ts, lines 63-80):
state comparison first (percent-decoded on both sides), then server-error
classification, then an eager client_info decode. -/
def validateServerAuthorizationCodeResponse (ops : ExternalOps) (serverResponseHash : ServerAuthorizationCodeResponse) (cachedState : String) : Except AuthError Unit :=
  if ops.decodeURIComponent (jsO serverResponseHash.state) ≠ ops.decodeURIComponent cachedState then
    Except.error AuthError.stateMismatch
  else if codeErrTruthy serverResponseHash then
    if ops.isInteractionRequiredError serverResponseHash.error serverResponseHash.error_description serverResponseHash.suberror then
      Except.error (AuthError.interactionRequired serverResponseHash.error serverResponseHash.error_description serverResponseHash.suberror)
    else
      Except.error (AuthError.serverErrorCode serverResponseHash.error serverResponseHash.error_description serverResponseHash.suberror)
  else if truthyS serverResponseHash.client_info then
    match buildClientInfo ops (serverResponseHash.client_info.getD "") with
    | Except.error e => Except.error e
    | Except.ok _ => Except.ok ()
  else
    Except.ok ()

/-- validateTokenResponse (ResponseHandler.ts, lines 86-96): server-error
classification only. -/
def validateTokenResponse (ops : ExternalOps) (serverResponse : ServerAuthorizationTokenResponse) : Except AuthError Unit :=
  if tokenErrTruthy serverResponse then
    if ops.isInteractionRequiredError serverResponse.error serverResponse.error_description serverResponse.suberror then
      Except.error (AuthError.interactionRequired serverResponse.error serverResponse.error_description serverResponse.suberror)
    else
      Except.error (AuthError.serverErrorToken serverResponse.error (tokenErrString serverResponse))
  else
    Except.ok ()

/-- The response-handler instance state that the embedded methods read: the
client id plus whether a serializable cache and a persistence plugin were
supplied at construction. -/
structure ResponseHandler where
  clientId : String
  hasSerializableCache : Bool
  hasPersistencePlugin : Bool
deriving DecidableEq, Repr

/-- Step 1 of handleServerTokenResponse (lines 114-123): decode client_info
when truthy and derive the home account identifier "uid.utid" when both parts
are non-empty; otherwise the identifier is left empty.  Returns the decoded
client info (when any) together with the identifier. -/
def computeHomeAccountId (ops : ExternalOps) (client_info : Option String) : Except AuthError (Option ClientInfo × String) :=
  if truthyS client_info then
    match buildClientInfo ops (client_info.getD "") with
    | Except.error e => Except.error e
    | Except.ok info =>
      if !info.uid.isEmpty && !info.utid.isEmpty then
        Except.ok (some info, info.uid ++ "." ++ info.utid)
      else
        Except.ok (some info, "")
  else
    Except.ok (none, "")

/-- Step 2 of handleServerTokenResponse (lines 125-136): decode the id token
when present and check its nonce claim against the cached nonce when a
non-empty one was supplied. -/
def decodeIdTokenStep (ops : ExternalOps) (id_token cachedNonce : Option String) : Except AuthError (Option AuthToken) :=
  if StringUtils.isEmpty id_token then
    Except.ok none
  else
    match AuthToken.create ops (id_token.getD "") with
    | Except.error e => Except.error e
    | Except.ok idTokenObj =>
      if !(StringUtils.isEmpty cachedNonce) then
        if idTokenObj.claims.nonce ≠ cachedNonce then
          Except.error AuthError.nonceMismatch
        else
          Except.ok (some idTokenObj)
      else
        Except.ok (some idTokenObj)

/-- The sub-claim fallback for the home account identifier (lines 144-153):
when the identifier is still empty and the decoded id token carries a truthy
sub claim, use that claim. -/
def applySubFallback (homeAccountIdentifier : String) (idTokenObj : Option AuthToken) : String :=
  if homeAccountIdentifier.isEmpty then
    match idTokenObj with
    | some t =>
      match t.claims.sub with
      | some s => if s.isEmpty then homeAccountIdentifier else s
      | none => homeAccountIdentifier
    | none => homeAccountIdentifier
  else
    homeAccountIdentifier

/-- Step 3 of handleServerTokenResponse (lines 156-159): parse the cached
state into a RequestStateObject when a non-empty one was supplied. -/
def parseStateStep (ops : ExternalOps) (cachedState : Option String) : Except AuthError (Option RequestStateObject) :=
  if !(StringUtils.isEmpty cachedState) then
    match ProtocolUtils.parseRequestState ops (cachedState.getD "") with
    | Except.error e => Except.error e
    | Except.ok r => Except.ok (some r)
  else
    Except.ok none

/-- generateAccountEntity (ResponseHandler.ts, lines 285-302). -/
def generateAccountEntity (ops : ExternalOps) (serverTokenResponse : ServerAuthorizationTokenResponse) (idToken : Option AuthToken) (authority : Authority) (oboAssertion : Option String) : Except AuthError AccountEntity :=
  if authority.authorityType = AuthorityType.Adfs then
    Except.ok (AccountEntity.createGenericAccount authority idToken oboAssertion)
  else if StringUtils.isEmpty serverTokenResponse.client_info && authority.protocolMode = "AAD" then
    Except.error AuthError.clientInfoEmpty
  else if truthyS serverTokenResponse.client_info then
    Except.ok (AccountEntity.createAccount ops (serverTokenResponse.client_info.getD "") authority idToken oboAssertion)
  else
    Except.ok (AccountEntity.createGenericAccount authority idToken oboAssertion)

/-- The expiration baseline (ResponseHandler.ts, lines 235-238): the
library-state timestamp when one was round-tripped, the current time in
seconds otherwise. -/
def expirationBaseline (ops : ExternalOps) (libraryState : Option LibraryStateObject) : Nat :=
  match libraryState with
  | some ls => ls.ts
  | none => ops.nowSeconds

/-- generateCacheRecord (ResponseHandler.ts, lines 198-277). -/
def generateCacheRecord (ops : ExternalOps) (rh : ResponseHandler) (homeAccountIdentifier : String) (serverTokenResponse : ServerAuthorizationTokenResponse) (idTokenObj : Option AuthToken) (authority : Authority) (libraryState : Option LibraryStateObject) (requestScopes : Option (List String)) (oboAssertion : Option String) : Except AuthError CacheRecord :=
  let env := Authority.generateEnvironmentFromAuthority authority
  if env.isEmpty then
    Except.error AuthError.invalidCacheEnvironment
  else
    let idPair : Except AuthError (Option IdTokenEntity × Option AccountEntity) :=
      if !(StringUtils.isEmpty serverTokenResponse.id_token) then
        match generateAccountEntity ops serverTokenResponse idTokenObj authority oboAssertion with
        | Except.error e => Except.error e
        | Except.ok acct =>
          Except.ok
            (some (IdTokenEntity.createIdTokenEntity homeAccountIdentifier env
                    (serverTokenResponse.id_token.getD "") rh.clientId
                    ((idTokenObj.map (fun t => t.claims.tid.getD "")).getD "") oboAssertion),
             some acct)
      else
        Except.ok (none, none)
    match idPair with
    | Except.error e => Except.error e
    | Except.ok (cachedIdToken, cachedAccount) =>
      let cachedAccessToken : Option AccessTokenEntity :=
        if !(StringUtils.isEmpty serverTokenResponse.access_token) then
          let responseScopes : ScopeSet :=
            if truthyS serverTokenResponse.scope then
              ScopeSet.fromString (serverTokenResponse.scope.getD "")
            else
              ScopeSet.fromArray (requestScopes.getD [])
          let timestamp := expirationBaseline ops libraryState
          let tokenExpirationSeconds := timestamp + serverTokenResponse.expires_in
          let extendedTokenExpirationSeconds := tokenExpirationSeconds + serverTokenResponse.ext_expires_in
          some (AccessTokenEntity.createAccessTokenEntity homeAccountIdentifier env
                  (serverTokenResponse.access_token.getD "") rh.clientId
                  (match idTokenObj with
                   | some t => t.claims.tid.getD ""
                   | none => authority.tenant)
                  (ScopeSet.printScopes responseScopes)
                  tokenExpirationSeconds extendedTokenExpirationSeconds
                  serverTokenResponse.token_type oboAssertion)
        else
          none
      let cachedRefreshToken : Option RefreshTokenEntity :=
        if !(StringUtils.isEmpty serverTokenResponse.refresh_token) then
          some (RefreshTokenEntity.createRefreshTokenEntity homeAccountIdentifier env
                  (serverTokenResponse.refresh_token.getD "") rh.clientId
                  serverTokenResponse.foci oboAssertion)
        else
          none
      let cachedAppMetadata : Option AppMetadataEntity :=
        if !(StringUtils.isEmpty serverTokenResponse.foci) then
          some (AppMetadataEntity.createAppMetadataEntity rh.clientId env (serverTokenResponse.foci.getD ""))
        else
          none
      Except.ok
        { account := cachedAccount, idToken := cachedIdToken,
          accessToken := cachedAccessToken, refreshToken := cachedRefreshToken,
          appMetadata := cachedAppMetadata }

/-- The authentication-scheme constants this engine compares against. -/
def AuthenticationScheme.POP : String := "pop"

/-- Caller-facing authentication result (response/AuthenticationResult.ts).
`expiresOn`/`extExpiresOn` are the Date values in epoch milliseconds (null
when no access token was cached). -/
structure AuthenticationResult where
  uniqueId : String
  tenantId : String
  scopes : List String
  account : Option AccountEntity
  idToken : String
  idTokenClaims : Option TokenClaims
  accessToken : String
  fromCache : Bool
  expiresOn : Option Nat
  extExpiresOn : Option Nat
  familyId : Option String
  tokenType : String
  state : String
deriving DecidableEq, Repr

/-- generateAuthenticationResult (ResponseHandler.ts, lines 314-351). -/
def generateAuthenticationResult (ops : ExternalOps) (cacheRecord : CacheRecord) (idTokenObj : Option AuthToken) (fromTokenCache : Bool) (requestState : Option RequestStateObject) (resourceRequestMethod resourceRequestUri : Option String) : AuthenticationResult :=
  let accessTokenValue : String :=
    match cacheRecord.accessToken with
    | some tok =>
      if tok.tokenType = some AuthenticationScheme.POP then
        ops.signPopToken tok.secret resourceRequestMethod resourceRequestUri
      else
        tok.secret
    | none => ""
  let responseScopes : List String :=
    match cacheRecord.accessToken with
    | some tok => ScopeSet.asArray (ScopeSet.fromString tok.target)
    | none => []
  let expiresOn : Option Nat :=
    match cacheRecord.accessToken with
    | some tok => some (tok.expiresOn * 1000)
    | none => none
  let extExpiresOn : Option Nat :=
    match cacheRecord.accessToken with
    | some tok => some (tok.extendedExpiresOn * 1000)
    | none => none
  let familyId : Option String :=
    match cacheRecord.appMetadata with
    | some md => if md.familyId.isEmpty then none else some md.familyId
    | none => none
  let uid : String :=
    match idTokenObj with
    | some t => (if truthyS t.claims.oid then t.claims.oid else t.claims.sub).getD ""
    | none => ""
  let tid : String :=
    match idTokenObj with
    | some t => t.claims.tid.getD ""
    | none => ""
  { uniqueId := uid
    tenantId := tid
    scopes := responseScopes
    account := cacheRecord.account
    idToken :=
      match idTokenObj with
      | some t => t.rawToken
      | none => ""
    idTokenClaims :=
      match idTokenObj with
      | some t => some t.claims
      | none => none
    accessToken := accessTokenValue
    fromCache := fromTokenCache
    expiresOn := expiresOn
    extExpiresOn := extExpiresOn
    familyId := familyId
    tokenType :=
      match cacheRecord.accessToken with
      | some tok => tok.tokenType.getD ""
      | none => ""
    state :=
      match requestState with
      | some rs => rs.userRequestState
      | none => "" }

/-- Observable interactions with the persistence plugin and the store during
the store-access section of handleServerTokenResponse. -/
inductive CacheEvent where
  | beforeCacheAccess
  | afterCacheAccess
  | storeGetAccount (key : String)
  | storeSave
deriving DecidableEq, Repr

/-- The outcome of one handleServerTokenResponse call: the returned value (a
null result is `Except.ok none`), the final store, and the ordered event
trace. -/
structure HandleOutcome where
  result : Except AuthError (Option AuthenticationResult)
  store : CacheManager
  events : List CacheEvent
deriving Repr

/-- The body of the try-block's store-access section (lines 174-182): the
refresh guard followed by the store write.  Returns the body's outcome
(`ok none` is the guard's early null return), the store after the section,
and the store events emitted by the section. -/
def cacheWriteBody (store : CacheManager) (cacheRecord : CacheRecord) (handlingRefreshTokenResponse : Bool) : Except AuthError (Option Unit) × CacheManager × List CacheEvent :=
  match handlingRefreshTokenResponse, cacheRecord.account with
  | true, some acct =>
    let key := acct.generateAccountKey
    match store.getAccount key with
    | Except.error e => (Except.error e, store, [CacheEvent.storeGetAccount key])
    | Except.ok none => (Except.ok none, store, [CacheEvent.storeGetAccount key])
    | Except.ok (some _) =>
      match store.saveCacheRecord cacheRecord with
      | Except.error e => (Except.error e, store, [CacheEvent.storeGetAccount key, CacheEvent.storeSave])
      | Except.ok store2 => (Except.ok (some ()), store2, [CacheEvent.storeGetAccount key, CacheEvent.storeSave])
  | _, _ =>
    match store.saveCacheRecord cacheRecord with
    | Except.error e => (Except.error e, store, [CacheEvent.storeSave])
    | Except.ok store2 => (Except.ok (some ()), store2, [CacheEvent.storeSave])

/-- handleServerTokenResponse (ResponseHandler.ts, lines 103-190): the full
orchestration — home-account-id derivation, id-token decoding and nonce check,
state parsing, cache-record generation, the try/finally-scoped store access
with the refresh guard, and result assembly.  The persistence hooks are
recorded in the event trace: `beforeCacheAccess` before the store is touched
(when a plugin and a serializable cache are configured) and `afterCacheAccess`
appended on every exit from the section, as the finally-block does. -/
def handleServerTokenResponse (ops : ExternalOps) (rh : ResponseHandler) (store : CacheManager) (serverTokenResponse : ServerAuthorizationTokenResponse) (authority : Authority) (resourceRequestMethod resourceRequestUri cachedNonce cachedState : Option String) (requestScopes : Option (List String)) (oboAssertion : Option String) (handlingRefreshTokenResponse : Bool) : HandleOutcome :=
  match computeHomeAccountId ops serverTokenResponse.client_info with
  | Except.error e => { result := Except.error e, store := store, events := [] }
  | Except.ok (_clientInfo, hai0) =>
    match decodeIdTokenStep ops serverTokenResponse.id_token cachedNonce with
    | Except.error e => { result := Except.error e, store := store, events := [] }
    | Except.ok idTokenObj =>
      let homeAccountIdentifier := applySubFallback hai0 idTokenObj
      match parseStateStep ops cachedState with
      | Except.error e => { result := Except.error e, store := store, events := [] }
      | Except.ok requestStateObj =>
        match generateCacheRecord ops rh homeAccountIdentifier serverTokenResponse idTokenObj authority (requestStateObj.bind (fun r => r.libraryState)) requestScopes oboAssertion with
        | Except.error e => { result := Except.error e, store := store, events := [] }
        | Except.ok cacheRecord =>
          let persistence := rh.hasPersistencePlugin && rh.hasSerializableCache
          let preEvents := if persistence then [CacheEvent.beforeCacheAccess] else []
          let body := cacheWriteBody store cacheRecord handlingRefreshTokenResponse
          let postEvents := if persistence then [CacheEvent.afterCacheAccess] else []
          let events := preEvents ++ body.2.2 ++ postEvents
          match body.1 with
          | Except.error e => { result := Except.error e, store := body.2.1, events := events }
          | Except.ok none => { result := Except.ok none, store := body.2.1, events := events }
          | Except.ok (some _) =>
            { result := Except.ok (some (generateAuthenticationResult ops cacheRecord idTokenObj false requestStateObj resourceRequestMethod resourceRequestUri))
              store := body.2.1
              events := events }

/-- Header-name constants used by the token-request path (utils/Constants.ts). -/
def HeaderNames.CONTENT_TYPE : String := "Content-Type"

/-- Constants.URL_FORM_CONTENT_TYPE. -/
def Constants.URL_FORM_CONTENT_TYPE : String := "application/x-www-form-urlencoded"

/-- AADServerParamKeys.X_CLIENT_SKU. -/
def AADServerParamKeys.X_CLIENT_SKU : String := "x-client-SKU"

/-- AADServerParamKeys.X_CLIENT_VER. -/
def AADServerParamKeys.X_CLIENT_VER : String := "x-client-VER"

/-- AADServerParamKeys.X_CLIENT_OS. -/
def AADServerParamKeys.X_CLIENT_OS : String := "x-client-OS"

/-- AADServerParamKeys.X_CLIENT_CPU. -/
def AADServerParamKeys.X_CLIENT_CPU : String := "x-client-CPU"

/-- HeaderNames.X_CLIENT_CURR_TELEM (current-request telemetry header). -/
def HeaderNames.X_CLIENT_CURR_TELEM : String := "x-client-current-telemetry"

/-- HeaderNames.X_CLIENT_LAST_TELEM (last-request telemetry header). -/
def HeaderNames.X_CLIENT_LAST_TELEM : String := "x-client-last-telemetry"

/-- Modelled from the spec: the server telemetry manager's accumulated
current/last-request telemetry cache, abstracted as a list of entries. -/
structure ServerTelemetryCache where
  entries : List String
deriving DecidableEq, Repr

/-- Modelled from the spec: ServerTelemetryManager.clearTelemetryCache drops
the accumulated current/last-request telemetry. -/
def clearTelemetryCache (_t : ServerTelemetryCache) : ServerTelemetryCache :=
  { entries := [] }

/-- Library metadata carried by the client configuration (sku, version, os,
cpu). -/
structure LibraryInfo where
  sku : String
  version : String
  os : String
  cpu : String
deriving DecidableEq, Repr

/-- The slice of the BaseClient configuration the embedded methods read. -/
structure BaseClientConfig where
  libraryInfo : LibraryInfo
  serverTelemetryManager : Option ServerTelemetryCache
deriving DecidableEq, Repr

/-- createDefaultTokenRequestHeaders (BaseClient, lines 77-101): builds an
empty header record and sets only Content-Type (the ADFS-proxy workaround
leaves the library-capability and telemetry headers commented out). -/
def createDefaultTokenRequestHeaders (_config : BaseClientConfig) : List (String × String) :=
  [(HeaderNames.CONTENT_TYPE, Constants.URL_FORM_CONTENT_TYPE)]

/-- createDefaultLibraryHeaders (BaseClient, lines 106-116): the
client-identification headers. -/
def createDefaultLibraryHeaders (config : BaseClientConfig) : List (String × String) :=
  [(AADServerParamKeys.X_CLIENT_SKU, config.libraryInfo.sku),
   (AADServerParamKeys.X_CLIENT_VER, config.libraryInfo.version),
   (AADServerParamKeys.X_CLIENT_OS, config.libraryInfo.os),
   (AADServerParamKeys.X_CLIENT_CPU, config.libraryInfo.cpu)]

/-- The network response returned by the POST to the token endpoint; only the
HTTP status is read by the telemetry rule. -/
structure NetworkResponse where
  status : Nat
deriving DecidableEq, Repr

/-- executePostToTokenEndpoint (BaseClient, lines 125-138): after the POST
returns, the telemetry cache is cleared when a telemetry manager is configured
and the status is below 500 and not 429.  The POST itself is the network
collaborator; its already-received response is the `response` argument.
Returns the response together with the telemetry manager state after the
call. -/
def executePostToTokenEndpoint (serverTelemetryManager : Option ServerTelemetryCache) (response : NetworkResponse) : NetworkResponse × Option ServerTelemetryCache :=
  if serverTelemetryManager.isSome ∧ response.status < 500 ∧ response.status ≠ 429 then
    (response, serverTelemetryManager.map clearTelemetryCache)
  else
    (response, serverTelemetryManager)

deriving instance DecidableEq for Except

/-- Classifies the errors that echo a server-reported error triple
(interaction-required or generic server error), as opposed to client-side
validation failures. -/
def isServerReportedError : AuthError → Bool
  | AuthError.interactionRequired _ _ _ => true
  | AuthError.serverErrorCode _ _ _ => true
  | AuthError.serverErrorToken _ _ => true
  | _ => false

/-- Whether the decoded id token offers a truthy sub claim for the
home-account-identifier fallback. -/
def subFallbackAvailable (idTokenObj : Option AuthToken) : Bool :=
  match idTokenObj with
  | some t => truthyS t.claims.sub
  | none => false

/-- The client-identification and telemetry header names that the
token-request path must not emit. -/
def clientAndTelemetryHeaderNames : List String :=
  [AADServerParamKeys.X_CLIENT_SKU, AADServerParamKeys.X_CLIENT_VER,
   AADServerParamKeys.X_CLIENT_OS, AADServerParamKeys.X_CLIENT_CPU,
   HeaderNames.X_CLIENT_CURR_TELEM, HeaderNames.X_CLIENT_LAST_TELEM]

/-- Concrete collaborator capabilities used to evaluate the embedding on
concrete inputs. -/
def opsW : ExternalOps :=
  { decodeClientInfo := fun s => if s = "ci" then some { uid := "uid1", utid := "utid1" } else none
    extractTokenClaims := fun s =>
      if s = "idtok" then
        some { nonce := some "nonce1", sub := some "sub1", oid := some "oid1", tid := some "tid1" }
      else none
    parseState := fun s =>
      if s = "st" then some { userRequestState := "userstate", libraryState := some { id := "rid", ts := 500 } }
      else none
    signPopToken := fun s _ _ => "signed:" ++ s
    decodeURIComponent := fun s => s
    isInteractionRequiredError := fun e _ _ => e == some "interaction_required"
    nowSeconds := 1000 }

/-- Concrete decoded id token produced by `opsW` for the raw token "idtok". -/
def authTokW : AuthToken :=
  { rawToken := "idtok"
    claims := { nonce := some "nonce1", sub := some "sub1", oid := some "oid1", tid := some "tid1" } }

/-- Concrete token response carrying all credential material. -/
def respW : ServerAuthorizationTokenResponse :=
  { token_type := some "Bearer", scope := some "User.Read", expires_in := 3600,
    ext_expires_in := 7200, access_token := some "AT1", refresh_token := some "RT1",
    id_token := some "idtok", client_info := some "ci", foci := none,
    error := none, error_description := none, suberror := none,
    error_codes := none, timestamp := none, trace_id := none, correlation_id := none }

/-- Concrete token response of the bearer-only scenario: access token, scope
and lifetimes only. -/
def resp8 : ServerAuthorizationTokenResponse :=
  { token_type := some "Bearer", scope := some "User.Read", expires_in := 3600,
    ext_expires_in := 7200, access_token := some "AT1", refresh_token := none,
    id_token := none, client_info := none, foci := none,
    error := none, error_description := none, suberror := none,
    error_codes := none, timestamp := none, trace_id := none, correlation_id := none }

/-- Concrete AAD authority. -/
def authorityW : Authority :=
  { authorityType := AuthorityType.Default, protocolMode := "AAD",
    tenant := "tenant1", canonicalEnvironment := "login.microsoftonline.com" }

/-- Concrete handler without persistence. -/
def rhW : ResponseHandler :=
  { clientId := "client1", hasSerializableCache := false, hasPersistencePlugin := false }

/-- Concrete handler with a persistence plugin and serializable cache. -/
def rhP : ResponseHandler :=
  { clientId := "client1", hasSerializableCache := true, hasPersistencePlugin := true }

/-- Concrete empty, fault-free store. -/
def storeW : CacheManager :=
  { accounts := [], savedRecords := [], getAccountFails := false, saveFails := false }

/-- The cache record the embedding builds for `respW` under `opsW`. -/
def recW : CacheRecord :=
  match generateCacheRecord opsW rhW "uid1.utid1" respW (some authTokW) authorityW none none none with
  | Except.ok r => r
  | Except.error _ => default

/-- The account entity named by `recW`. -/
def acctW : AccountEntity :=
  match recW.account with
  | some a => a
  | none => default

/-- The access-token entity stored in `recW`. -/
def tokW : AccessTokenEntity :=
  match recW.accessToken with
  | some t => t
  | none => default

/-- Concrete token response reporting an interaction-required error. -/
def trespI : ServerAuthorizationTokenResponse :=
  { token_type := none, scope := none, expires_in := 0, ext_expires_in := 0,
    access_token := none, refresh_token := none, id_token := none, client_info := none,
    foci := none, error := some "interaction_required", error_description := none,
    suberror := none, error_codes := none, timestamp := none, trace_id := none,
    correlation_id := none }

/-- Appending to a non-empty string yields a non-empty string. -/
theorem String.isEmpty_append_false (a b : String) (h : a.isEmpty = false) : (a ++ b).isEmpty = false := by
  rw [Bool.eq_false_iff] at h ⊢
  intro hcontra
  rw [String.isEmpty_iff] at hcontra
  apply h
  rw [String.isEmpty_iff]
  have hd : a.data ++ b.data = [] := congrArg String.data hcontra
  have hda : a.data = [] := (List.append_eq_nil.mp hd).1
  cases a
  simp only at hda
  rw [hda]

/-- C9: after the POST to the token endpoint, the telemetry cache is cleared
exactly when the response status is < 500 and not 429; a status >= 500 or 429
leaves the telemetry manager state unchanged. -/
theorem executePost_telemetry_clear_rule (t : ServerTelemetryCache) (response : NetworkResponse) :
    (response.status < 500 ∧ response.status ≠ 429 →
      (executePostToTokenEndpoint (some t) response).2 = some (clearTelemetryCache t)) ∧
    (500 ≤ response.status ∨ response.status = 429 →
      (executePostToTokenEndpoint (some t) response).2 = some t) := by
  constructor
  · rintro ⟨h1, h2⟩
    simp [executePostToTokenEndpoint, h1, h2]
  · intro h
    have hc : ¬((some t : Option ServerTelemetryCache).isSome ∧ response.status < 500 ∧ response.status ≠ 429) := by
      rintro ⟨-, hlt, hne⟩
      rcases h with h | h
      · omega
      · exact hne h
    simp only [executePostToTokenEndpoint, if_neg hc]

/-- Witness for C9: with a non-empty telemetry cache, status 200 clears it,
while statuses 429 and 503 leave it unchanged. -/
theorem executePost_telemetry_clear_rule_witness :
    (executePostToTokenEndpoint (some { entries := ["a"] }) { status := 200 }).2 = some (clearTelemetryCache { entries := ["a"] }) ∧
    (executePostToTokenEndpoint (some { entries := ["a"] }) { status := 429 }).2 = some { entries := ["a"] } ∧
    (executePostToTokenEndpoint (some { entries := ["a"] }) { status := 503 }).2 = some { entries := ["a"] } :=
  ⟨(executePost_telemetry_clear_rule { entries := ["a"] } { status := 200 }).1 (by decide),
   (executePost_telemetry_clear_rule { entries := ["a"] } { status := 429 }).2 (Or.inr rfl),
   (executePost_telemetry_clear_rule { entries := ["a"] } { status := 503 }).2 (Or.inl (by decide))⟩

/-- C10: for every client configuration, the default token-request headers are
exactly the single Content-Type entry (URL-form-encoded), so no
client-identification or telemetry header is ever present; those are produced
only by the separate createDefaultLibraryHeaders. -/
theorem tokenRequestHeaders_only_content_type (config : BaseClientConfig) :
    createDefaultTokenRequestHeaders config = [(HeaderNames.CONTENT_TYPE, Constants.URL_FORM_CONTENT_TYPE)] ∧
    (createDefaultTokenRequestHeaders config).map Prod.fst = [HeaderNames.CONTENT_TYPE] ∧
    (createDefaultTokenRequestHeaders config).filter (fun p => clientAndTelemetryHeaderNames.contains p.1) = [] ∧
    (createDefaultLibraryHeaders config).map Prod.fst =
      [AADServerParamKeys.X_CLIENT_SKU, AADServerParamKeys.X_CLIENT_VER,
       AADServerParamKeys.X_CLIENT_OS, AADServerParamKeys.X_CLIENT_CPU] := by
  exact ⟨rfl, rfl, rfl, rfl⟩

/-- C1: in a refresh-token-response call whose built cache record names an
account, if looking that account's derived key up in the store finds no
account, the call saves nothing (the store is unchanged and saveCacheRecord is
never invoked) and returns a null result. -/
theorem refresh_guard_aborts_without_write (ops : ExternalOps) (rh : ResponseHandler)
    (store : CacheManager) (resp : ServerAuthorizationTokenResponse) (authority : Authority)
    (m u nonce state : Option String) (scopes : Option (List String)) (obo : Option String)
    (cinfo : Option ClientInfo) (hai0 : String) (idTok : Option AuthToken)
    (rs : Option RequestStateObject) (record : CacheRecord) (acct : AccountEntity)
    (h1 : computeHomeAccountId ops resp.client_info = Except.ok (cinfo, hai0))
    (h2 : decodeIdTokenStep ops resp.id_token nonce = Except.ok idTok)
    (h3 : parseStateStep ops state = Except.ok rs)
    (h4 : generateCacheRecord ops rh (applySubFallback hai0 idTok) resp idTok authority
            (rs.bind (fun r => r.libraryState)) scopes obo = Except.ok record)
    (h5 : record.account = some acct)
    (h6 : store.getAccount acct.generateAccountKey = Except.ok none) :
    (handleServerTokenResponse ops rh store resp authority m u nonce state scopes obo true).result = Except.ok none ∧
    (handleServerTokenResponse ops rh store resp authority m u nonce state scopes obo true).store = store ∧
    CacheEvent.storeSave ∉ (handleServerTokenResponse ops rh store resp authority m u nonce state scopes obo true).events := by
  have hbody : cacheWriteBody store record true =
      (Except.ok none, store, [CacheEvent.storeGetAccount acct.generateAccountKey]) := by
    simp only [cacheWriteBody, h5, h6]
  simp only [handleServerTokenResponse, h1, h2, h3, h4, hbody]
  refine ⟨trivial, trivial, ?_⟩
  cases hpc : rh.hasPersistencePlugin && rh.hasSerializableCache <;> simp [hpc]

/-- Witness for C1: a concrete refresh-flow call against an empty store
returns null and leaves the store untouched. -/
theorem refresh_guard_aborts_without_write_witness :
    (handleServerTokenResponse opsW rhW storeW respW authorityW none none none none none none true).result = Except.ok none ∧
    (handleServerTokenResponse opsW rhW storeW respW authorityW none none none none none none true).store = storeW ∧
    CacheEvent.storeSave ∉ (handleServerTokenResponse opsW rhW storeW respW authorityW none none none none none none true).events :=
  refresh_guard_aborts_without_write opsW rhW storeW respW authorityW none none none none none none
    (some { uid := "uid1", utid := "utid1" }) "uid1.utid1" (some authTokW) none recW acctW
    rfl rfl rfl rfl rfl rfl

/-- Structure of the event trace of a persistence-enabled call: either the
call failed before the store-access section (no events), or the trace is the
beforeCacheAccess hook, then the store-section events of the built record,
then the afterCacheAccess hook. -/
theorem handle_events_structure (ops : ExternalOps) (rh : ResponseHandler)
    (store : CacheManager) (resp : ServerAuthorizationTokenResponse) (authority : Authority)
    (m u nonce state : Option String) (scopes : Option (List String)) (obo : Option String)
    (refresh : Bool)
    (hp : rh.hasPersistencePlugin = true) (hs : rh.hasSerializableCache = true) :
    (handleServerTokenResponse ops rh store resp authority m u nonce state scopes obo refresh).events = [] ∨
    ∃ record, (handleServerTokenResponse ops rh store resp authority m u nonce state scopes obo refresh).events =
      CacheEvent.beforeCacheAccess :: (cacheWriteBody store record refresh).2.2 ++ [CacheEvent.afterCacheAccess] := by
  cases h1 : computeHomeAccountId ops resp.client_info with
  | error e => exact Or.inl (by simp only [handleServerTokenResponse, h1])
  | ok p =>
    obtain ⟨cinfo, hai0⟩ := p
    cases h2 : decodeIdTokenStep ops resp.id_token nonce with
    | error e => exact Or.inl (by simp only [handleServerTokenResponse, h1, h2])
    | ok idTok =>
      cases h3 : parseStateStep ops state with
      | error e => exact Or.inl (by simp only [handleServerTokenResponse, h1, h2, h3])
      | ok rs =>
        cases h4 : generateCacheRecord ops rh (applySubFallback hai0 idTok) resp idTok authority (rs.bind (fun r => r.libraryState)) scopes obo with
        | error e => exact Or.inl (by simp only [handleServerTokenResponse, h1, h2, h3, h4])
        | ok record =>
          refine Or.inr ⟨record, ?_⟩
          rcases hb : cacheWriteBody store record refresh with ⟨res, st2, ev⟩
          rcases res with e | oo
          · simp [handleServerTokenResponse, h1, h2, h3, h4, hb, hp, hs]
          · rcases oo with _ | uu
            · simp [handleServerTokenResponse, h1, h2, h3, h4, hb, hp, hs]
            · simp [handleServerTokenResponse, h1, h2, h3, h4, hb, hp, hs]

/-- C2: with a persistence plugin and serializable cache configured, whenever
beforeCacheAccess has been initiated, afterCacheAccess fires and is the last
store-section event on every exit path (successful write, the refresh guard's
early null return, and errors from the guard lookup or the store write), so
errors propagate only after the end hook has fired. -/
theorem after_hook_fires_on_every_exit (ops : ExternalOps) (rh : ResponseHandler)
    (store : CacheManager) (resp : ServerAuthorizationTokenResponse) (authority : Authority)
    (m u nonce state : Option String) (scopes : Option (List String)) (obo : Option String)
    (refresh : Bool)
    (hp : rh.hasPersistencePlugin = true) (hs : rh.hasSerializableCache = true) :
    CacheEvent.beforeCacheAccess ∈ (handleServerTokenResponse ops rh store resp authority m u nonce state scopes obo refresh).events →
      CacheEvent.afterCacheAccess ∈ (handleServerTokenResponse ops rh store resp authority m u nonce state scopes obo refresh).events ∧
      (handleServerTokenResponse ops rh store resp authority m u nonce state scopes obo refresh).events.getLast? = some CacheEvent.afterCacheAccess := by
  intro hmem
  rcases handle_events_structure ops rh store resp authority m u nonce state scopes obo refresh hp hs with h | ⟨record, h⟩
  · rw [h] at hmem
    simp at hmem
  · refine ⟨?_, ?_⟩
    · rw [h]
      simp
    · rw [h]
      exact List.getLast?_concat _

/-- Witness for C2: a concrete persistence-enabled call emits the matched
hook pair with afterCacheAccess as the final event. -/
theorem after_hook_fires_on_every_exit_witness :
    CacheEvent.afterCacheAccess ∈ (handleServerTokenResponse opsW rhP storeW respW authorityW none none none none none none false).events ∧
    (handleServerTokenResponse opsW rhP storeW respW authorityW none none none none none none false).events.getLast? = some CacheEvent.afterCacheAccess :=
  after_hook_fires_on_every_exit opsW rhP storeW respW authorityW none none none none none none false rfl rfl
    (by
      have h : (handleServerTokenResponse opsW rhP storeW respW authorityW none none none none none none false).events =
          [CacheEvent.beforeCacheAccess, CacheEvent.storeSave, CacheEvent.afterCacheAccess] := rfl
      rw [h]
      exact List.mem_cons_self _ _)

/-- buildClientInfo fails only with the client-info decoding error. -/
theorem buildClientInfo_error (ops : ExternalOps) (s : String) (e : AuthError)
    (h : buildClientInfo ops s = Except.error e) : e = AuthError.clientInfoDecodingError := by
  unfold buildClientInfo at h
  cases hd : ops.decodeClientInfo s with
  | some info =>
    rw [hd] at h
    simp at h
  | none =>
    rw [hd] at h
    simp at h
    exact h.symm

/-- C3: the authorization-code validator fails with StateMismatchError exactly
when the percent-decoded response state differs from the percent-decoded
cached state (so the state check precedes error classification and client_info
decoding); given matching states, both validators raise a server-reported
error iff the error/error_description/suberror triple carries a value, as an
InteractionRequiredAuthError when the triple matches a known
interaction-required signature and as a generic ServerError otherwise; a token
response with none of those fields validates as a no-op. -/
theorem validators_state_and_server_error_rule (ops : ExternalOps)
    (resp : ServerAuthorizationCodeResponse) (cachedState : String)
    (tresp : ServerAuthorizationTokenResponse) :
    (validateServerAuthorizationCodeResponse ops resp cachedState = Except.error AuthError.stateMismatch ↔
      ops.decodeURIComponent (jsO resp.state) ≠ ops.decodeURIComponent cachedState) ∧
    (ops.decodeURIComponent (jsO resp.state) = ops.decodeURIComponent cachedState →
      (((∃ e, validateServerAuthorizationCodeResponse ops resp cachedState = Except.error e ∧ isServerReportedError e = true) ↔ codeErrTruthy resp = true) ∧
       (codeErrTruthy resp = true →
         (ops.isInteractionRequiredError resp.error resp.error_description resp.suberror = true →
            validateServerAuthorizationCodeResponse ops resp cachedState =
              Except.error (AuthError.interactionRequired resp.error resp.error_description resp.suberror)) ∧
         (ops.isInteractionRequiredError resp.error resp.error_description resp.suberror = false →
            validateServerAuthorizationCodeResponse ops resp cachedState =
              Except.error (AuthError.serverErrorCode resp.error resp.error_description resp.suberror))))) ∧
    ((∃ e, validateTokenResponse ops tresp = Except.error e) ↔ tokenErrTruthy tresp = true) ∧
    (tokenErrTruthy tresp = true →
      (ops.isInteractionRequiredError tresp.error tresp.error_description tresp.suberror = true →
         validateTokenResponse ops tresp =
           Except.error (AuthError.interactionRequired tresp.error tresp.error_description tresp.suberror)) ∧
      (ops.isInteractionRequiredError tresp.error tresp.error_description tresp.suberror = false →
         validateTokenResponse ops tresp =
           Except.error (AuthError.serverErrorToken tresp.error (tokenErrString tresp)))) ∧
    (tokenErrTruthy tresp = false → validateTokenResponse ops tresp = Except.ok ()) := by
  refine ⟨?_, ?_, ?_, ?_, ?_⟩
  · constructor
    · intro hres
      by_contra hdec
      have hcond : ¬(ops.decodeURIComponent (jsO resp.state) ≠ ops.decodeURIComponent cachedState) :=
        not_ne_iff.mpr hdec
      unfold validateServerAuthorizationCodeResponse at hres
      rw [if_neg hcond] at hres
      by_cases herr : codeErrTruthy resp = true
      · rw [if_pos herr] at hres
        by_cases hint : ops.isInteractionRequiredError resp.error resp.error_description resp.suberror = true
        · rw [if_pos hint] at hres
          simp at hres
        · rw [if_neg hint] at hres
          simp at hres
      · rw [if_neg herr] at hres
        by_cases hci : truthyS resp.client_info = true
        · rw [if_pos hci] at hres
          cases hb : buildClientInfo ops (resp.client_info.getD "") with
          | error e2 =>
            have he2 := buildClientInfo_error ops _ e2 hb
            rw [hb] at hres
            simp at hres
            rw [hres] at he2
            simp at he2
          | ok info =>
            rw [hb] at hres
            simp at hres
        · rw [if_neg hci] at hres
          simp at hres
    · intro hne
      unfold validateServerAuthorizationCodeResponse
      rw [if_pos hne]
  · intro hstate
    have hcond : ¬(ops.decodeURIComponent (jsO resp.state) ≠ ops.decodeURIComponent cachedState) :=
      not_ne_iff.mpr hstate
    constructor
    · constructor
      · rintro ⟨e, hres, hsrv⟩
        by_contra herr
        unfold validateServerAuthorizationCodeResponse at hres
        rw [if_neg hcond, if_neg herr] at hres
        by_cases hci : truthyS resp.client_info = true
        · rw [if_pos hci] at hres
          cases hb : buildClientInfo ops (resp.client_info.getD "") with
          | error e2 =>
            have he2 := buildClientInfo_error ops _ e2 hb
            rw [hb] at hres
            simp at hres
            rw [← hres] at hsrv
            rw [he2] at hsrv
            simp [isServerReportedError] at hsrv
          | ok info =>
            rw [hb] at hres
            simp at hres
        · rw [if_neg hci] at hres
          simp at hres
      · intro herr
        unfold validateServerAuthorizationCodeResponse
        rw [if_neg hcond, if_pos herr]
        by_cases hint : ops.isInteractionRequiredError resp.error resp.error_description resp.suberror = true
        · rw [if_pos hint]
          exact ⟨_, rfl, rfl⟩
        · rw [if_neg hint]
          exact ⟨_, rfl, rfl⟩
    · intro herr
      constructor
      · intro hint
        unfold validateServerAuthorizationCodeResponse
        rw [if_neg hcond, if_pos herr, if_pos hint]
      · intro hint
        have hni : ¬(ops.isInteractionRequiredError resp.error resp.error_description resp.suberror = true) := by
          simp [hint]
        unfold validateServerAuthorizationCodeResponse
        rw [if_neg hcond, if_pos herr, if_neg hni]
  · constructor
    · rintro ⟨e, hres⟩
      by_contra herr
      unfold validateTokenResponse at hres
      rw [if_neg herr] at hres
      simp at hres
    · intro herr
      unfold validateTokenResponse
      rw [if_pos herr]
      by_cases hint : ops.isInteractionRequiredError tresp.error tresp.error_description tresp.suberror = true
      · rw [if_pos hint]
        exact ⟨_, rfl⟩
      · rw [if_neg hint]
        exact ⟨_, rfl⟩
  · intro herr
    constructor
    · intro hint
      unfold validateTokenResponse
      rw [if_pos herr, if_pos hint]
    · intro hint
      have hni : ¬(ops.isInteractionRequiredError tresp.error tresp.error_description tresp.suberror = true) := by
        simp [hint]
      unfold validateTokenResponse
      rw [if_pos herr, if_neg hni]
  · intro herr
    have hne : ¬(tokenErrTruthy tresp = true) := by
      simp [herr]
    unfold validateTokenResponse
    rw [if_neg hne]

/-- Witness for C3: a concrete interaction-required token response raises the
interaction-required error (not the generic server error), and a concrete
error-free token response validates as a no-op. -/
theorem validators_state_and_server_error_rule_witness :
    validateTokenResponse opsW trespI =
      Except.error (AuthError.interactionRequired (some "interaction_required") none none) ∧
    validateTokenResponse opsW resp8 = Except.ok () :=
  ⟨((validators_state_and_server_error_rule opsW
      { code := none, state := some "abc", error := none, error_description := none,
        suberror := none, client_info := none } "abc" trespI).2.2.2.1 rfl).1 rfl,
   (validators_state_and_server_error_rule opsW
      { code := none, state := some "abc", error := none, error_description := none,
        suberror := none, client_info := none } "abc" resp8).2.2.2.2 rfl⟩

/-- C4: a nonce claim differing from a supplied non-empty cached nonce fails
the call with NonceMismatchError, and every validation error raised in steps
1-3 (client_info decoding, id-token decoding/nonce check, state parsing)
propagates with the store unchanged and no store access performed. -/
theorem validation_errors_precede_cache_writes (ops : ExternalOps) (rh : ResponseHandler)
    (store : CacheManager) (resp : ServerAuthorizationTokenResponse) (authority : Authority)
    (m u nonce state : Option String) (scopes : Option (List String)) (obo : Option String)
    (refresh : Bool) :
    (∀ e, computeHomeAccountId ops resp.client_info = Except.error e →
       handleServerTokenResponse ops rh store resp authority m u nonce state scopes obo refresh =
         { result := Except.error e, store := store, events := [] }) ∧
    (∀ cinfo hai0 e, computeHomeAccountId ops resp.client_info = Except.ok (cinfo, hai0) →
       decodeIdTokenStep ops resp.id_token nonce = Except.error e →
       handleServerTokenResponse ops rh store resp authority m u nonce state scopes obo refresh =
         { result := Except.error e, store := store, events := [] }) ∧
    (∀ cinfo hai0 idTok e, computeHomeAccountId ops resp.client_info = Except.ok (cinfo, hai0) →
       decodeIdTokenStep ops resp.id_token nonce = Except.ok idTok →
       parseStateStep ops state = Except.error e →
       handleServerTokenResponse ops rh store resp authority m u nonce state scopes obo refresh =
         { result := Except.error e, store := store, events := [] }) ∧
    (∀ cinfo hai0 tok, computeHomeAccountId ops resp.client_info = Except.ok (cinfo, hai0) →
       StringUtils.isEmpty resp.id_token = false →
       AuthToken.create ops (resp.id_token.getD "") = Except.ok tok →
       StringUtils.isEmpty nonce = false →
       tok.claims.nonce ≠ nonce →
       handleServerTokenResponse ops rh store resp authority m u nonce state scopes obo refresh =
         { result := Except.error AuthError.nonceMismatch, store := store, events := [] }) := by
  refine ⟨?_, ?_, ?_, ?_⟩
  · intro e h1
    simp only [handleServerTokenResponse, h1]
  · intro cinfo hai0 e h1 h2
    simp only [handleServerTokenResponse, h1, h2]
  · intro cinfo hai0 idTok e h1 h2 h3
    simp only [handleServerTokenResponse, h1, h2, h3]
  · intro cinfo hai0 tok h1 hid hcr hnon hne
    have h2 : decodeIdTokenStep ops resp.id_token nonce = Except.error AuthError.nonceMismatch := by
      simp [decodeIdTokenStep, hid, hcr, hnon, hne]
    simp only [handleServerTokenResponse, h1, h2]

/-- Witness for C4: a concrete call with a mismatching cached nonce fails with
NonceMismatchError, leaving the store untouched and emitting no store
events. -/
theorem validation_errors_precede_cache_writes_witness :
    handleServerTokenResponse opsW rhW storeW respW authorityW none none (some "wrong") none none none false =
      { result := Except.error AuthError.nonceMismatch, store := storeW, events := [] } :=
  (validation_errors_precede_cache_writes opsW rhW storeW respW authorityW none none (some "wrong") none none none false).2.2.2
    (some { uid := "uid1", utid := "utid1" }) "uid1.utid1" authTokW rfl rfl rfl rfl (by decide)

/-- C5: when client_info is present and decodes to a pair with non-empty uid
and utid, the derived home-account identifier is "uid.utid" (and the sub-claim
fallback leaves it unchanged); when no client_info-derived identifier exists,
the identifier falls back to a truthy sub claim of the decoded id token; and
it stays empty when client_info is absent and no sub-claim fallback exists. -/
theorem home_account_identifier_derivation (ops : ExternalOps) (ci : Option String) (idTok : Option AuthToken) :
    (∀ s info, ci = some s → s.isEmpty = false → ops.decodeClientInfo s = some info →
       info.uid.isEmpty = false → info.utid.isEmpty = false →
       computeHomeAccountId ops ci = Except.ok (some info, info.uid ++ "." ++ info.utid) ∧
       applySubFallback (info.uid ++ "." ++ info.utid) idTok = info.uid ++ "." ++ info.utid) ∧
    (∀ t s, idTok = some t → t.claims.sub = some s → s.isEmpty = false →
       applySubFallback "" idTok = s) ∧
    (truthyS ci = false → subFallbackAvailable idTok = false →
       computeHomeAccountId ops ci = Except.ok (none, "") ∧ applySubFallback "" idTok = "") := by
  refine ⟨?_, ?_, ?_⟩
  · intro s info hci hs hdec hu hut
    subst hci
    constructor
    · simp [computeHomeAccountId, truthyS, buildClientInfo, hs, hdec, hu, hut]
    · have hne : (info.uid ++ "." ++ info.utid).isEmpty = false :=
        String.isEmpty_append_false _ info.utid (String.isEmpty_append_false info.uid "." hu)
      simp [applySubFallback, hne]
  · intro t s hit hsub hs
    subst hit
    have h0 : "".isEmpty = true := rfl
    simp [applySubFallback, hsub, hs, h0]
  · intro hci hsf
    constructor
    · simp [computeHomeAccountId, hci]
    · cases idTok with
      | none => simp [applySubFallback]
      | some t =>
        simp only [subFallbackAvailable] at hsf
        cases hsub : t.claims.sub with
        | none => simp [applySubFallback, hsub]
        | some v =>
          rw [hsub] at hsf
          simp [truthyS] at hsf
          simp [applySubFallback, hsub, hsf]

/-- Witness for C5: the concrete client_info "ci" decodes to (uid1, utid1) and
yields the identifier "uid1.utid1", unchanged by the fallback. -/
theorem home_account_identifier_derivation_witness :
    computeHomeAccountId opsW (some "ci") = Except.ok (some { uid := "uid1", utid := "utid1" }, "uid1.utid1") ∧
    applySubFallback "uid1.utid1" none = "uid1.utid1" :=
  (home_account_identifier_derivation opsW (some "ci") none).1 "ci" { uid := "uid1", utid := "utid1" }
    rfl rfl rfl rfl rfl

/-- C6: the cached access token's expiration equals the baseline timestamp
(the library-state timestamp when one was parsed, the current time otherwise)
plus expires_in, and its extended expiration equals that value plus
ext_expires_in. -/
theorem access_token_expiration_formula (ops : ExternalOps) (rh : ResponseHandler)
    (hai : String) (resp : ServerAuthorizationTokenResponse) (idTok : Option AuthToken)
    (authority : Authority) (ls : Option LibraryStateObject) (scopes : Option (List String))
    (obo : Option String) (rec : CacheRecord) (tok : AccessTokenEntity)
    (h : generateCacheRecord ops rh hai resp idTok authority ls scopes obo = Except.ok rec)
    (ht : rec.accessToken = some tok) :
    tok.expiresOn = expirationBaseline ops ls + resp.expires_in ∧
    tok.extendedExpiresOn = tok.expiresOn + resp.ext_expires_in := by
  simp only [generateCacheRecord] at h
  split at h
  · simp at h
  · split at h
    · simp at h
    · simp only [Except.ok.injEq] at h
      subst h
      dsimp only at ht
      split at ht
      · simp only [Option.some.injEq] at ht
        subst ht
        exact ⟨rfl, rfl⟩
      · simp at ht

/-- Witness for C6: the concrete record built from `respW` with no library
state carries expiration 1000 + 3600 and extended expiration 4600 + 7200. -/
theorem access_token_expiration_formula_witness :
    tokW.expiresOn = expirationBaseline opsW none + respW.expires_in ∧
    tokW.extendedExpiresOn = tokW.expiresOn + respW.ext_expires_in :=
  access_token_expiration_formula opsW rhW "uid1.utid1" respW (some authTokW) authorityW
    none none none recW tokW rfl rfl


/-- generateAccountEntity fails only with the client-info-empty error. -/
theorem generateAccountEntity_error (ops : ExternalOps) (resp : ServerAuthorizationTokenResponse)
    (idTok : Option AuthToken) (authority : Authority) (obo : Option String) (e : AuthError)
    (h : generateAccountEntity ops resp idTok authority obo = Except.error e) :
    e = AuthError.clientInfoEmpty := by
  unfold generateAccountEntity at h
  split at h
  · simp at h
  · split at h
    · injection h with h2
      exact h2.symm
    · split at h
      · simp at h
      · simp at h

/-- Truthiness is the negation of StringUtils.isEmpty. -/
theorem truthyS_eq_not_isEmpty (s : Option String) : truthyS s = !StringUtils.isEmpty s := by
  cases s <;> simp [truthyS, StringUtils.isEmpty]

/-- A record built from a response with a non-empty id_token names the account
produced by generateAccountEntity. -/
theorem generateCacheRecord_ok_account (ops : ExternalOps) (rh : ResponseHandler) (hai : String)
    (resp : ServerAuthorizationTokenResponse) (idTok : Option AuthToken) (authority : Authority)
    (ls : Option LibraryStateObject) (scopes : Option (List String)) (obo : Option String)
    (rec : CacheRecord)
    (h : generateCacheRecord ops rh hai resp idTok authority ls scopes obo = Except.ok rec)
    (hid : StringUtils.isEmpty resp.id_token = false) :
    ∃ acct, generateAccountEntity ops resp idTok authority obo = Except.ok acct ∧
      rec.account = some acct := by
  simp only [generateCacheRecord] at h
  split at h
  · simp at h
  · split at h
    · simp at h
    · rename_i cIdT cAcct heq
      simp only [Except.ok.injEq] at h
      subst h
      rw [hid] at heq
      simp only [Bool.not_false, if_true] at heq
      split at heq
      · simp at heq
      · rename_i acct heq2
        simp only [Except.ok.injEq, Prod.mk.injEq] at heq
        exact ⟨acct, heq2, heq.2.symm⟩

/-- When the environment is non-empty, the id_token present, and the account
construction fails, generateCacheRecord propagates that failure. -/
theorem generateCacheRecord_account_error (ops : ExternalOps) (rh : ResponseHandler) (hai : String)
    (resp : ServerAuthorizationTokenResponse) (idTok : Option AuthToken) (authority : Authority)
    (ls : Option LibraryStateObject) (scopes : Option (List String)) (obo : Option String)
    (e : AuthError)
    (henv : (Authority.generateEnvironmentFromAuthority authority).isEmpty = false)
    (hid : StringUtils.isEmpty resp.id_token = false)
    (hacct : generateAccountEntity ops resp idTok authority obo = Except.error e) :
    generateCacheRecord ops rh hai resp idTok authority ls scopes obo = Except.error e := by
  simp [generateCacheRecord, henv, hid, hacct]

/-- C7: generateCacheRecord fails with InvalidCacheEnvironmentError exactly
when the resolved environment is empty; a built record carries IdToken and
Account entities iff id_token is non-empty, an AccessToken entity iff
access_token is non-empty, a RefreshToken entity iff refresh_token is
non-empty, and an AppMetadata entity iff foci is non-empty; the account
follows the authority rules (ADFS yields a generic account, empty client_info
under AAD protocol fails with ClientInfoEmptyError, otherwise the account is
built from client_info when truthy, else generic); and the access token's
scopes come from the response scope when present, else the request scopes. -/
theorem cache_record_shape (ops : ExternalOps) (rh : ResponseHandler) (hai : String)
    (resp : ServerAuthorizationTokenResponse) (idTok : Option AuthToken) (authority : Authority)
    (ls : Option LibraryStateObject) (scopes : Option (List String)) (obo : Option String) :
    (generateCacheRecord ops rh hai resp idTok authority ls scopes obo = Except.error AuthError.invalidCacheEnvironment ↔
      (Authority.generateEnvironmentFromAuthority authority).isEmpty = true) ∧
    (∀ rec, generateCacheRecord ops rh hai resp idTok authority ls scopes obo = Except.ok rec →
       rec.idToken.isSome = !StringUtils.isEmpty resp.id_token ∧
       rec.account.isSome = !StringUtils.isEmpty resp.id_token ∧
       rec.accessToken.isSome = !StringUtils.isEmpty resp.access_token ∧
       rec.refreshToken.isSome = !StringUtils.isEmpty resp.refresh_token ∧
       rec.appMetadata.isSome = !StringUtils.isEmpty resp.foci) ∧
    ((Authority.generateEnvironmentFromAuthority authority).isEmpty = false →
     StringUtils.isEmpty resp.id_token = false →
       ((authority.authorityType = AuthorityType.Adfs →
          ∀ rec, generateCacheRecord ops rh hai resp idTok authority ls scopes obo = Except.ok rec →
            rec.account = some (AccountEntity.createGenericAccount authority idTok obo)) ∧
        (¬authority.authorityType = AuthorityType.Adfs →
         StringUtils.isEmpty resp.client_info = true → authority.protocolMode = "AAD" →
          generateCacheRecord ops rh hai resp idTok authority ls scopes obo = Except.error AuthError.clientInfoEmpty) ∧
        (¬authority.authorityType = AuthorityType.Adfs → truthyS resp.client_info = true →
          ∀ rec, generateCacheRecord ops rh hai resp idTok authority ls scopes obo = Except.ok rec →
            rec.account = some (AccountEntity.createAccount ops (resp.client_info.getD "") authority idTok obo)) ∧
        (¬authority.authorityType = AuthorityType.Adfs → truthyS resp.client_info = false →
         ¬authority.protocolMode = "AAD" →
          ∀ rec, generateCacheRecord ops rh hai resp idTok authority ls scopes obo = Except.ok rec →
            rec.account = some (AccountEntity.createGenericAccount authority idTok obo)))) ∧
    (∀ rec tok, generateCacheRecord ops rh hai resp idTok authority ls scopes obo = Except.ok rec →
       rec.accessToken = some tok →
       tok.target = ScopeSet.printScopes
         (if truthyS resp.scope then ScopeSet.fromString (resp.scope.getD "")
          else ScopeSet.fromArray (scopes.getD []))) := by
  refine ⟨?_, ?_, ?_, ?_⟩
  · constructor
    · intro h
      by_contra henv
      rw [Bool.not_eq_true] at henv
      cases hid : StringUtils.isEmpty resp.id_token with
      | true => simp [generateCacheRecord, henv, hid] at h
      | false =>
        cases hacct : generateAccountEntity ops resp idTok authority obo with
        | error e =>
          have hgc := generateCacheRecord_account_error ops rh hai resp idTok authority ls scopes obo e henv hid hacct
          rw [hgc] at h
          injection h with h2
          have h3 := generateAccountEntity_error ops resp idTok authority obo e hacct
          rw [h2] at h3
          simp at h3
        | ok acct => simp [generateCacheRecord, henv, hid, hacct] at h
    · intro henv
      simp only [generateCacheRecord]
      rw [if_pos henv]
  · intro rec h
    have hIfP : ∀ {α : Type} (b : Bool) (x : α), (if b = true then some x else none).isSome = b := by
      intro α b x
      cases b <;> simp
    have hIfN : ∀ {α : Type} (b : Bool) (x : α), (if b = false then some x else none).isSome = !b := by
      intro α b x
      cases b <;> simp
    simp only [generateCacheRecord] at h
    split at h
    · simp at h
    · split at h
      · simp at h
      · rename_i cIdT cAcct heq
        simp only [Except.ok.injEq] at h
        subst h
        cases hid : StringUtils.isEmpty resp.id_token with
        | true =>
          rw [hid] at heq
          simp only [Bool.not_true] at heq
          simp only [Bool.false_eq_true, if_false] at heq
          simp only [Except.ok.injEq, Prod.mk.injEq] at heq
          obtain ⟨h1, h2⟩ := heq
          subst h1
          subst h2
          refine ⟨?_, ?_, ?_, ?_, ?_⟩ <;> simp [hid, hIfP, hIfN]
        | false =>
          rw [hid] at heq
          simp only [Bool.not_false, if_true] at heq
          split at heq
          · simp at heq
          · rename_i acct heq2
            simp only [Except.ok.injEq, Prod.mk.injEq] at heq
            obtain ⟨h1, h2⟩ := heq
            subst h1
            subst h2
            refine ⟨?_, ?_, ?_, ?_, ?_⟩ <;> simp [hid, hIfP, hIfN]
  · intro henv hid
    refine ⟨?_, ?_, ?_, ?_⟩
    · intro hty rec h
      obtain ⟨acct, hacct, hrec⟩ := generateCacheRecord_ok_account ops rh hai resp idTok authority ls scopes obo rec h hid
      have hgen : generateAccountEntity ops resp idTok authority obo =
          Except.ok (AccountEntity.createGenericAccount authority idTok obo) := by
        simp [generateAccountEntity, hty]
      rw [hgen] at hacct
      injection hacct with h2
      rw [hrec, ← h2]
    · intro hty hciem hprot
      have hgen : generateAccountEntity ops resp idTok authority obo = Except.error AuthError.clientInfoEmpty := by
        simp [generateAccountEntity, hty, hciem, hprot]
      exact generateCacheRecord_account_error ops rh hai resp idTok authority ls scopes obo _ henv hid hgen
    · intro hty hcit rec h
      have hciem : StringUtils.isEmpty resp.client_info = false := by
        rw [truthyS_eq_not_isEmpty] at hcit
        simpa using hcit
      obtain ⟨acct, hacct, hrec⟩ := generateCacheRecord_ok_account ops rh hai resp idTok authority ls scopes obo rec h hid
      have hgen : generateAccountEntity ops resp idTok authority obo =
          Except.ok (AccountEntity.createAccount ops (resp.client_info.getD "") authority idTok obo) := by
        simp [generateAccountEntity, hty, hciem, hcit]
      rw [hgen] at hacct
      injection hacct with h2
      rw [hrec, ← h2]
    · intro hty hcif hprot rec h
      have hciem : StringUtils.isEmpty resp.client_info = true := by
        rw [truthyS_eq_not_isEmpty] at hcif
        simpa using hcif
      obtain ⟨acct, hacct, hrec⟩ := generateCacheRecord_ok_account ops rh hai resp idTok authority ls scopes obo rec h hid
      have hgen : generateAccountEntity ops resp idTok authority obo =
          Except.ok (AccountEntity.createGenericAccount authority idTok obo) := by
        simp [generateAccountEntity, hty, hciem, hprot, hcif]
      rw [hgen] at hacct
      injection hacct with h2
      rw [hrec, ← h2]
  · intro rec tok h ht
    simp only [generateCacheRecord] at h
    split at h
    · simp at h
    · split at h
      · simp at h
      · simp only [Except.ok.injEq] at h
        subst h
        dsimp only at ht
        split at ht
        · simp only [Option.some.injEq] at ht
          subst ht
          rfl
        · simp at ht

/-- Witness for C7: the concrete record built from `respW` names the account
built from its client_info and carries an access token. -/
theorem cache_record_shape_witness :
    recW.account = some (AccountEntity.createAccount opsW "ci" authorityW (some authTokW) none) ∧
    recW.accessToken.isSome = true :=
  ⟨((cache_record_shape opsW rhW "uid1.utid1" respW (some authTokW) authorityW none none none).2.2.1
      rfl rfl).2.2.1 (by decide) rfl recW rfl,
   ((cache_record_shape opsW rhW "uid1.utid1" respW (some authTokW) authorityW none none none).2.1
      recW rfl).2.2.1⟩

/-- C8: the assembled result's accessToken is a fresh proof-of-possession
signature bound to the resource-request method and URI when the cached token
type is the PoP scheme, and the raw cached secret otherwise; the account is
null when the record has no account entity; expirations are the cached epoch
seconds converted to Date milliseconds; the state echoes the caller's original
request state; and the concrete bearer-only scenario yields a record with only
an AccessToken entity and a result with a null account and scopes
["User.Read"]. -/
theorem authentication_result_assembly (ops : ExternalOps) (record : CacheRecord)
    (idTok : Option AuthToken) (fromCache : Bool) (reqState : Option RequestStateObject)
    (m u : Option String) :
    (∀ tok, record.accessToken = some tok →
       ((tok.tokenType = some AuthenticationScheme.POP →
          (generateAuthenticationResult ops record idTok fromCache reqState m u).accessToken =
            ops.signPopToken tok.secret m u) ∧
        (¬tok.tokenType = some AuthenticationScheme.POP →
          (generateAuthenticationResult ops record idTok fromCache reqState m u).accessToken = tok.secret) ∧
        (generateAuthenticationResult ops record idTok fromCache reqState m u).expiresOn = some (tok.expiresOn * 1000) ∧
        (generateAuthenticationResult ops record idTok fromCache reqState m u).extExpiresOn = some (tok.extendedExpiresOn * 1000))) ∧
    (record.account = none →
       (generateAuthenticationResult ops record idTok fromCache reqState m u).account = none) ∧
    (∀ rs, reqState = some rs →
       (generateAuthenticationResult ops record idTok fromCache reqState m u).state = rs.userRequestState) ∧
    ((handleServerTokenResponse opsW rhW storeW resp8 authorityW none none none none none none false).result.map
       (Option.map (fun r => (r.account, r.scopes, r.accessToken, r.tokenType))) =
      Except.ok (some (none, ["User.Read"], "AT1", "Bearer")) ∧
     (generateCacheRecord opsW rhW "" resp8 none authorityW none none none).map
       (fun rec => (rec.account.isSome, rec.idToken.isSome, rec.accessToken.isSome, rec.refreshToken.isSome, rec.appMetadata.isSome)) =
      Except.ok (false, false, true, false, false)) := by
  refine ⟨?_, ?_, ?_, ?_, ?_⟩
  · intro tok htok
    refine ⟨?_, ?_, ?_, ?_⟩
    · intro hpop
      simp [generateAuthenticationResult, htok, hpop]
    · intro hnp
      simp [generateAuthenticationResult, htok, hnp]
    · simp [generateAuthenticationResult, htok]
    · simp [generateAuthenticationResult, htok]
  · intro hacc
    simp [generateAuthenticationResult, hacc]
  · intro rs hrs
    simp [generateAuthenticationResult, hrs]
  · rfl
  · rfl

/-- Witness for C8: the concrete bearer access token is surfaced unchanged and
its expiration is converted to milliseconds. -/
theorem authentication_result_assembly_witness :
    (generateAuthenticationResult opsW recW (some authTokW) false none none none).accessToken = tokW.secret ∧
    (generateAuthenticationResult opsW recW (some authTokW) false none none none).expiresOn = some (tokW.expiresOn * 1000) :=
  ⟨((authentication_result_assembly opsW recW (some authTokW) false none none none).1 tokW rfl).2.1 (by decide),
   ((authentication_result_assembly opsW recW (some authTokW) false none none none).1 tokW rfl).2.2.1⟩
